import Mathlib

/-!
Shallow embedding of the AI Image Editor pipeline (src/App.tsx).

The React component keeps seven pieces of hook state; we collect them in
`AppModel`.  The submit handler is an asynchronous chain: validate inputs,
read the file, call the descriptive-prompt service, then the
image-generation service.  We embed it as a pure function producing a list
of `Event`s (state-setter calls and outbound service calls), parameterised
by oracles for the three effectful steps (file read, stage-1 call,
stage-2 call); the resulting component state is the left fold of the
setter events over the starting state.
-/

namespace AIEditor

/-- src/App.tsx (types): the AppState enum. -/
inductive AppState where
  | Idle
  | LoadingDescriptivePrompt
  | LoadingGeneratedImage
  | Success
  | Error
deriving Repr, DecidableEq

/-- A browser File: we keep the two fields the component reads
(`file.type` for the MIME type; a name for identity). -/
structure File where
  name : String
  type : String
deriving Repr, DecidableEq

/-- src/App.tsx (types): ImageFileWithPreview. -/
structure ImageFileWithPreview where
  file : File
  previewUrl : String
deriving Repr, DecidableEq

/-- The seven useState hooks of the App component (lines 12-18). -/
structure AppModel where
  uploadedImage : Option ImageFileWithPreview
  userPrompt : String
  isLoading : Bool
  generatedImageUrl : Option String
  error : Option String
  appState : AppState
  intermediatePrompt : Option String
deriving Repr, DecidableEq

/-- An error thrown by a service call; `err.message` may be missing
(`none`) or empty (both falsy in JS). -/
structure ServiceError where
  message : Option String
deriving Repr, DecidableEq

/-- One observable step of a handler run: a state-setter invocation or an
outbound service call.  `callDescService`'s image data is `none` in the
corner where the data URL has no comma (JS `split(',')[1]` is undefined). -/
inductive Event where
  | setIsLoading (b : Bool)
  | setError (e : Option String)
  | setGeneratedImageUrl (u : Option String)
  | setIntermediatePrompt (p : Option String)
  | setAppState (st : AppState)
  | callDescService (imageData : Option String) (mimeType : String) (instruction : String)
  | callImageService (prompt : String)
deriving Repr, DecidableEq

/-- JS String.prototype.trim(): drop leading and trailing whitespace.
(Executable replacement for String.trim, which does not kernel-reduce.) -/
def jsTrim (s : String) : String :=
  String.mk (((s.data.dropWhile Char.isWhitespace).reverse.dropWhile
    Char.isWhitespace).reverse)

/-- Validation message, App.tsx line 30. -/
def validationMsg : String := "Please upload an image and provide an editing prompt."

/-- FileReader onerror message, App.tsx line 66. -/
def readErrorMsg : String := "Failed to read uploaded image."

/-- Generic fallback for a failed generation, App.tsx line 59. -/
def generationFallbackMsg : String := "Failed to generate image. Please check API key and try again."

/-- `err.message || fallback` (App.tsx line 59): the service's own message
verbatim when available (present and non-empty, i.e. truthy), otherwise
the generic fallback. -/
def serviceErrorMessage (e : ServiceError) : String :=
  match e.message with
  | some m => if m = "" then generationFallbackMsg else m
  | none => generationFallbackMsg

/-- handleImageUpload (App.tsx lines 21-26): replace the uploaded image,
clear the generated image and the error, reset the state to Idle.  The
user prompt and the intermediate prompt are not touched. -/
def handleImageUpload (s : AppModel) (file : File) (previewUrl : String) : AppModel :=
  { s with uploadedImage := some { file := file, previewUrl := previewUrl },
           generatedImageUrl := none,
           error := none,
           appState := AppState.Idle }

/-- The PromptInput onChange handler (App.tsx line 115): set the user
prompt. -/
def setUserPrompt (s : AppModel) (q : String) : AppModel :=
  { s with userPrompt := q }

/-- handleSubmit (App.tsx lines 28-77) as the list of events it performs,
given the current state and oracles for the file read (`readRes`, the data
URL produced by readAsDataURL, or a read error), the descriptive-prompt
call (`descRes`) and the image-generation call (`imgRes`).  Event order
follows the source line by line; the `finally` block runs its
setIsLoading(false) after the try/catch body. -/
def handleSubmitEvents (s : AppModel) (readRes : Except Unit String)
    (descRes : Except ServiceError String)
    (imgRes : Except ServiceError String) : List Event :=
  match s.uploadedImage with
  | none => [Event.setError (some validationMsg)]
  | some img =>
    if jsTrim s.userPrompt = "" then
      [Event.setError (some validationMsg)]
    else
      [Event.setIsLoading true,
       Event.setError none,
       Event.setGeneratedImageUrl none,
       Event.setIntermediatePrompt none,
       Event.setAppState AppState.LoadingDescriptivePrompt] ++
      match readRes with
      | Except.error _ =>
        [Event.setError (some readErrorMsg),
         Event.setIsLoading false,
         Event.setAppState AppState.Error]
      | Except.ok dataUrl =>
        let base64Data := (dataUrl.splitOn ",").get? 1
        let mimeType := img.file.type
        [Event.callDescService base64Data mimeType s.userPrompt] ++
        match descRes with
        | Except.error e =>
          [Event.setError (some (serviceErrorMessage e)),
           Event.setAppState AppState.Error,
           Event.setIsLoading false]
        | Except.ok descriptivePrompt =>
          [Event.setIntermediatePrompt (some descriptivePrompt),
           Event.setAppState AppState.LoadingGeneratedImage,
           Event.callImageService descriptivePrompt] ++
          match imgRes with
          | Except.error e =>
            [Event.setError (some (serviceErrorMessage e)),
             Event.setAppState AppState.Error,
             Event.setIsLoading false]
          | Except.ok imageBytes =>
            [Event.setGeneratedImageUrl (some ("data:image/jpeg;base64," ++ imageBytes)),
             Event.setAppState AppState.Success,
             Event.setIsLoading false]

/-- Apply one event to the component state (service calls do not change
hook state). -/
def applyEvent (s : AppModel) : Event → AppModel
  | Event.setIsLoading b => { s with isLoading := b }
  | Event.setError e => { s with error := e }
  | Event.setGeneratedImageUrl u => { s with generatedImageUrl := u }
  | Event.setIntermediatePrompt p => { s with intermediatePrompt := p }
  | Event.setAppState st => { s with appState := st }
  | Event.callDescService _ _ _ => s
  | Event.callImageService _ => s

/-- Fold a list of events over a starting state. -/
def applyEvents (s : AppModel) (es : List Event) : AppModel :=
  es.foldl applyEvent s

/-- The component state after one complete handleSubmit run. -/
def runSubmit (s : AppModel) (readRes : Except Unit String)
    (descRes : Except ServiceError String)
    (imgRes : Except ServiceError String) : AppModel :=
  applyEvents s (handleSubmitEvents s readRes descRes imgRes)

/-- The sequence of AppState values a run passes through: the starting
state followed by each value assigned by a setAppState event, in order. -/
def observedAppStates (s0 : AppState) (es : List Event) : List AppState :=
  s0 :: es.filterMap (fun e =>
    match e with
    | Event.setAppState st => some st
    | _ => none)

/-- Number of calls to the Descriptive-Prompt Service in a run. -/
def descCallCount (es : List Event) : Nat :=
  (es.filter (fun e =>
    match e with
    | Event.callDescService _ _ _ => true
    | _ => false)).length

/-- Number of calls to the Image-Generation Service in a run. -/
def imgCallCount (es : List Event) : Nat :=
  (es.filter (fun e =>
    match e with
    | Event.callImageService _ => true
    | _ => false)).length

/-- App.tsx line 85. -/
def apiKeyNotConfiguredMsg : String := "API Key not configured. Please set the API_KEY environment variable."

/-- App.tsx line 88. -/
def apiKeyPlaceholderMsg : String := "API Key seems to be a placeholder. Please configure it correctly."

/-- App.tsx line 90. -/
def apiKeyDetectedMsg : String := "API Key detected (validation not performed)."

/-- getApiKeyStatus (App.tsx lines 79-91).  `apiKey = none` models
process/env/API_KEY being absent; an empty string is falsy in JS so it
also reports not-configured. -/
def getApiKeyStatus (apiKey : Option String) : String :=
  match apiKey with
  | none => apiKeyNotConfiguredMsg
  | some k =>
    if k = "" then apiKeyNotConfiguredMsg
    else if k = "YOUR_API_KEY" ∨ k.length < 10 then apiKeyPlaceholderMsg
    else apiKeyDetectedMsg

/-- The submit button's disabled condition (App.tsx line 118):
`isLoading || !uploadedImage || !userPrompt.trim()`.  It does not consult
the API key. -/
def submitButtonDisabled (isLoading : Bool) (uploadedImage : Option ImageFileWithPreview)
    (userPrompt : String) : Bool :=
  isLoading || uploadedImage.isNone || (jsTrim userPrompt == "")

/-- JS String.prototype.startsWith (executable replacement for
String.startsWith, which does not kernel-reduce). -/
def strStartsWith (s p : String) : Bool :=
  s.data.take p.data.length == p.data

/-- Whether the header shows the red API-key warning (App.tsx line 103). -/
def apiKeyWarningShown (apiKey : Option String) : Bool :=
  strStartsWith (getApiKeyStatus apiKey) "API Key not" ||
    strStartsWith (getApiKeyStatus apiKey) "API Key seems"

/-- C10's invariant: a Success state always carries a generated image. -/
def stateInvariant (s : AppModel) : Prop :=
  s.appState = AppState.Success → s.generatedImageUrl ≠ none

/-- A sample uploaded file. -/
def sampleFile : File := { name := "photo.jpg", type := "image/jpeg" }

/-- A sample uploaded image with preview. -/
def sampleImg : ImageFileWithPreview := { file := sampleFile, previewUrl := "blob:preview" }

/-- A fresh component state with valid inputs, used by witnesses. -/
def sampleIdle : AppModel :=
  { uploadedImage := some sampleImg,
    userPrompt := "make the sky purple",
    isLoading := false,
    generatedImageUrl := none,
    error := none,
    appState := AppState.Idle,
    intermediatePrompt := none }

/-- A component state after a failed run, with residue from that run. -/
def sampleFailed : AppModel :=
  { uploadedImage := some sampleImg,
    userPrompt := "make the sky purple",
    isLoading := false,
    generatedImageUrl := none,
    error := some "quota exceeded",
    appState := AppState.Error,
    intermediatePrompt := some "stale descriptive prompt" }

/-- A component state with no uploaded image. -/
def sampleNoImage : AppModel :=
  { uploadedImage := none,
    userPrompt := "make the sky purple",
    isLoading := false,
    generatedImageUrl := none,
    error := none,
    appState := AppState.Idle,
    intermediatePrompt := none }

/-- C1: on a run from Idle with a present image, an instruction that is
non-empty after trimming, and both remote calls succeeding, the pipeline
state passes through exactly Idle, LoadingDescriptivePrompt
(AwaitingDescription), LoadingGeneratedImage (AwaitingImage), Success
(Succeeded); in particular it never skips AwaitingDescription and never
jumps from Idle directly to Success or Error. -/
theorem run_success_state_sequence (s : AppModel) (img : ImageFileWithPreview)
    (dataUrl descriptivePrompt imageBytes : String)
    (hIdle : s.appState = AppState.Idle)
    (hImg : s.uploadedImage = some img)
    (hPrompt : jsTrim s.userPrompt ≠ "") :
    observedAppStates s.appState
        (handleSubmitEvents s (Except.ok dataUrl) (Except.ok descriptivePrompt)
          (Except.ok imageBytes)) =
      [AppState.Idle, AppState.LoadingDescriptivePrompt,
       AppState.LoadingGeneratedImage, AppState.Success] := by
  simp [observedAppStates, handleSubmitEvents, hIdle, hImg, hPrompt, List.filterMap]

/-- Witness for C1 at a concrete state and concrete oracle results. -/
theorem run_success_state_sequence_witness :
    observedAppStates sampleIdle.appState
        (handleSubmitEvents sampleIdle (Except.ok "data:image/jpeg;base64,QUJD")
          (Except.ok "a red bicycle on a beach") (Except.ok "WFla")) =
      [AppState.Idle, AppState.LoadingDescriptivePrompt,
       AppState.LoadingGeneratedImage, AppState.Success] :=
  run_success_state_sequence sampleIdle sampleImg _ _ _ rfl rfl
    (by simp only [sampleIdle]; decide)

/-- C2: when the image is absent or the instruction trims to empty, the
run performs only the validation-error assignment: neither service is
called, the pipeline state is unchanged, the validation message is set;
and an instruction of only spaces produces exactly the same events as the
empty instruction. -/
theorem run_validation_failure (s : AppModel)
    (r : Except Unit String) (d i : Except ServiceError String)
    (h : s.uploadedImage = none ∨ jsTrim s.userPrompt = "") :
    handleSubmitEvents s r d i = [Event.setError (some validationMsg)] ∧
    descCallCount (handleSubmitEvents s r d i) = 0 ∧
    imgCallCount (handleSubmitEvents s r d i) = 0 ∧
    (runSubmit s r d i).appState = s.appState ∧
    (runSubmit s r d i).error = some validationMsg ∧
    (∀ t : AppModel,
      handleSubmitEvents { t with userPrompt := "   " } r d i =
        handleSubmitEvents { t with userPrompt := "" } r d i) := by
  have hspaces : ∀ t : AppModel,
      handleSubmitEvents { t with userPrompt := "   " } r d i =
        handleSubmitEvents { t with userPrompt := "" } r d i := by
    intro t
    have h1 : jsTrim "   " = "" := by decide
    have h2 : jsTrim "" = "" := by decide
    cases htimg : t.uploadedImage <;>
      simp [handleSubmitEvents, htimg, h1, h2]
  rcases h with h | h
  · refine ⟨?_, ?_, ?_, ?_, ?_, hspaces⟩ <;>
      simp [handleSubmitEvents, h, runSubmit, applyEvents, applyEvent,
        descCallCount, imgCallCount]
  · cases himg : s.uploadedImage <;>
      refine ⟨?_, ?_, ?_, ?_, ?_, hspaces⟩ <;>
        simp [handleSubmitEvents, himg, h, runSubmit, applyEvents, applyEvent,
          descCallCount, imgCallCount]

/-- Witness for C2 at a concrete state with no uploaded image. -/
theorem run_validation_failure_witness :
    handleSubmitEvents sampleNoImage (Except.ok "d") (Except.ok "p") (Except.ok "b") =
        [Event.setError (some validationMsg)] ∧
    descCallCount (handleSubmitEvents sampleNoImage (Except.ok "d") (Except.ok "p")
        (Except.ok "b")) = 0 ∧
    imgCallCount (handleSubmitEvents sampleNoImage (Except.ok "d") (Except.ok "p")
        (Except.ok "b")) = 0 ∧
    (runSubmit sampleNoImage (Except.ok "d") (Except.ok "p") (Except.ok "b")).appState =
        sampleNoImage.appState ∧
    (runSubmit sampleNoImage (Except.ok "d") (Except.ok "p") (Except.ok "b")).error =
        some validationMsg ∧
    (∀ t : AppModel,
      handleSubmitEvents { t with userPrompt := "   " } (Except.ok "d") (Except.ok "p")
          (Except.ok "b") =
        handleSubmitEvents { t with userPrompt := "" } (Except.ok "d") (Except.ok "p")
          (Except.ok "b")) :=
  run_validation_failure sampleNoImage _ _ _ (Or.inl rfl)

/-- C3: when the Descriptive-Prompt Service fails, the Image-Generation
Service is never called (zero calls in the trace), the pipeline state
becomes Error, and the surfaced message is the service's own message
verbatim when available (present and non-empty), otherwise the generic
fallback. -/
theorem desc_failure_no_image_call (s : AppModel) (img : ImageFileWithPreview)
    (dataUrl : String) (e : ServiceError) (i : Except ServiceError String)
    (hImg : s.uploadedImage = some img) (hPrompt : jsTrim s.userPrompt ≠ "") :
    imgCallCount (handleSubmitEvents s (Except.ok dataUrl) (Except.error e) i) = 0 ∧
    (runSubmit s (Except.ok dataUrl) (Except.error e) i).appState = AppState.Error ∧
    (runSubmit s (Except.ok dataUrl) (Except.error e) i).error =
        some (serviceErrorMessage e) ∧
    (∀ m, e.message = some m → m ≠ "" →
      (runSubmit s (Except.ok dataUrl) (Except.error e) i).error = some m) ∧
    (e.message = none →
      (runSubmit s (Except.ok dataUrl) (Except.error e) i).error =
        some generationFallbackMsg) := by
  refine ⟨?_, ?_, ?_, ?_, ?_⟩ <;>
    simp [handleSubmitEvents, hImg, hPrompt, runSubmit, applyEvents, applyEvent,
      imgCallCount]
  · intro m hm hne
    simp [serviceErrorMessage, hm, hne]
  · intro hm
    simp [serviceErrorMessage, hm]

/-- Witness for C3 at a concrete state and a concrete service error. -/
theorem desc_failure_no_image_call_witness :
    imgCallCount (handleSubmitEvents sampleIdle (Except.ok "data:image/jpeg;base64,QUJD")
        (Except.error { message := some "quota exceeded" }) (Except.ok "b")) = 0 ∧
    (runSubmit sampleIdle (Except.ok "data:image/jpeg;base64,QUJD")
        (Except.error { message := some "quota exceeded" }) (Except.ok "b")).appState =
      AppState.Error ∧
    (runSubmit sampleIdle (Except.ok "data:image/jpeg;base64,QUJD")
        (Except.error { message := some "quota exceeded" }) (Except.ok "b")).error =
      some (serviceErrorMessage { message := some "quota exceeded" }) ∧
    (∀ m, ({ message := some "quota exceeded" } : ServiceError).message = some m → m ≠ "" →
      (runSubmit sampleIdle (Except.ok "data:image/jpeg;base64,QUJD")
          (Except.error { message := some "quota exceeded" }) (Except.ok "b")).error =
        some m) ∧
    (({ message := some "quota exceeded" } : ServiceError).message = none →
      (runSubmit sampleIdle (Except.ok "data:image/jpeg;base64,QUJD")
          (Except.error { message := some "quota exceeded" }) (Except.ok "b")).error =
        some generationFallbackMsg) :=
  desc_failure_no_image_call sampleIdle sampleImg _ _ _ rfl
    (by simp only [sampleIdle]; decide)

/-- C4: when stage 1 succeeds and stage 2 fails, the run ends in Error and
the generated image is unset (no partial image is exposed). -/
theorem img_failure_no_partial_image (s : AppModel) (img : ImageFileWithPreview)
    (dataUrl descriptivePrompt : String) (e : ServiceError)
    (hImg : s.uploadedImage = some img) (hPrompt : jsTrim s.userPrompt ≠ "") :
    (runSubmit s (Except.ok dataUrl) (Except.ok descriptivePrompt)
        (Except.error e)).appState = AppState.Error ∧
    (runSubmit s (Except.ok dataUrl) (Except.ok descriptivePrompt)
        (Except.error e)).generatedImageUrl = none ∧
    (runSubmit s (Except.ok dataUrl) (Except.ok descriptivePrompt)
        (Except.error e)).error = some (serviceErrorMessage e) := by
  refine ⟨?_, ?_, ?_⟩ <;>
    simp [handleSubmitEvents, hImg, hPrompt, runSubmit, applyEvents, applyEvent]

/-- Witness for C4 at a concrete state with a stage-2 failure. -/
theorem img_failure_no_partial_image_witness :
    (runSubmit sampleIdle (Except.ok "data:image/jpeg;base64,QUJD")
        (Except.ok "A red bicycle on a beach")
        (Except.error { message := none })).appState = AppState.Error ∧
    (runSubmit sampleIdle (Except.ok "data:image/jpeg;base64,QUJD")
        (Except.ok "A red bicycle on a beach")
        (Except.error { message := none })).generatedImageUrl = none ∧
    (runSubmit sampleIdle (Except.ok "data:image/jpeg;base64,QUJD")
        (Except.ok "A red bicycle on a beach")
        (Except.error { message := none })).error =
      some (serviceErrorMessage { message := none }) :=
  img_failure_no_partial_image sampleIdle sampleImg _ _ _ rfl
    (by simp only [sampleIdle]; decide)

/-- C5: when both services succeed and stage 2 returns base64 bytes `b`,
the exposed value is the data URI "data:image/jpeg;base64," ++ b and the
pipeline state is Success. -/
theorem double_success_data_uri (s : AppModel) (img : ImageFileWithPreview)
    (dataUrl descriptivePrompt imageBytes : String)
    (hImg : s.uploadedImage = some img) (hPrompt : jsTrim s.userPrompt ≠ "") :
    (runSubmit s (Except.ok dataUrl) (Except.ok descriptivePrompt)
        (Except.ok imageBytes)).generatedImageUrl =
      some ("data:image/jpeg;base64," ++ imageBytes) ∧
    (runSubmit s (Except.ok dataUrl) (Except.ok descriptivePrompt)
        (Except.ok imageBytes)).appState = AppState.Success := by
  refine ⟨?_, ?_⟩ <;>
    simp [handleSubmitEvents, hImg, hPrompt, runSubmit, applyEvents, applyEvent]

/-- Witness for C5 at a concrete state and concrete bytes. -/
theorem double_success_data_uri_witness :
    (runSubmit sampleIdle (Except.ok "data:image/jpeg;base64,QUJD")
        (Except.ok "A red bicycle on a beach under a purple sky")
        (Except.ok "WFla")).generatedImageUrl =
      some ("data:image/jpeg;base64," ++ "WFla") ∧
    (runSubmit sampleIdle (Except.ok "data:image/jpeg;base64,QUJD")
        (Except.ok "A red bicycle on a beach under a purple sky")
        (Except.ok "WFla")).appState = AppState.Success :=
  double_success_data_uri sampleIdle sampleImg _ _ _ rfl
    (by simp only [sampleIdle]; decide)

/-- C6 counterexample: a validation error (no uploaded image) produces a
user-visible message but leaves the pipeline state at Idle, not Error; so
it is false that every error sets the state to Failed. -/
theorem every_error_sets_failed_counterexample :
    (runSubmit sampleNoImage (Except.ok "d") (Except.ok "p") (Except.ok "b")).error =
        some validationMsg ∧
    (runSubmit sampleNoImage (Except.ok "d") (Except.ok "p") (Except.ok "b")).appState ≠
        AppState.Error := by
  decide

/-- C6 amended: every ReadError or ServiceError sets the pipeline state to
Error and surfaces a message (the read-error message, or the service's own
message when available and otherwise the generic fallback); a
ValidationError surfaces a message but leaves the pipeline state
unchanged. -/
theorem error_handling_amended :
    (∀ (s : AppModel) (img : ImageFileWithPreview) (d i : Except ServiceError String),
      s.uploadedImage = some img → jsTrim s.userPrompt ≠ "" →
        (runSubmit s (Except.error ()) d i).appState = AppState.Error ∧
        (runSubmit s (Except.error ()) d i).error = some readErrorMsg) ∧
    (∀ (s : AppModel) (img : ImageFileWithPreview) (dataUrl : String)
        (e : ServiceError) (i : Except ServiceError String),
      s.uploadedImage = some img → jsTrim s.userPrompt ≠ "" →
        (runSubmit s (Except.ok dataUrl) (Except.error e) i).appState =
            AppState.Error ∧
        (runSubmit s (Except.ok dataUrl) (Except.error e) i).error =
            some (serviceErrorMessage e)) ∧
    (∀ (s : AppModel) (img : ImageFileWithPreview) (dataUrl descriptivePrompt : String)
        (e : ServiceError),
      s.uploadedImage = some img → jsTrim s.userPrompt ≠ "" →
        (runSubmit s (Except.ok dataUrl) (Except.ok descriptivePrompt)
            (Except.error e)).appState = AppState.Error ∧
        (runSubmit s (Except.ok dataUrl) (Except.ok descriptivePrompt)
            (Except.error e)).error = some (serviceErrorMessage e)) ∧
    (∀ (s : AppModel) (r : Except Unit String) (d i : Except ServiceError String),
      (s.uploadedImage = none ∨ jsTrim s.userPrompt = "") →
        (runSubmit s r d i).appState = s.appState ∧
        (runSubmit s r d i).error = some validationMsg) := by
  refine ⟨?_, ?_, ?_, ?_⟩
  · intro s img d i hImg hPrompt
    refine ⟨?_, ?_⟩ <;>
      simp [handleSubmitEvents, hImg, hPrompt, runSubmit, applyEvents, applyEvent]
  · intro s img dataUrl e i hImg hPrompt
    refine ⟨?_, ?_⟩ <;>
      simp [handleSubmitEvents, hImg, hPrompt, runSubmit, applyEvents, applyEvent]
  · intro s img dataUrl descriptivePrompt e hImg hPrompt
    refine ⟨?_, ?_⟩ <;>
      simp [handleSubmitEvents, hImg, hPrompt, runSubmit, applyEvents, applyEvent]
  · intro s r d i h
    rcases h with h | h
    · refine ⟨?_, ?_⟩ <;>
        simp [handleSubmitEvents, h, runSubmit, applyEvents, applyEvent]
    · cases himg : s.uploadedImage <;>
        refine ⟨?_, ?_⟩ <;>
          simp [handleSubmitEvents, himg, h, runSubmit, applyEvents, applyEvent]

/-- Witness for the amended C6: a concrete read failure ends in Error with
the read-error message. -/
theorem error_handling_amended_witness :
    (runSubmit sampleIdle (Except.error ()) (Except.ok "p") (Except.ok "b")).appState =
        AppState.Error ∧
    (runSubmit sampleIdle (Except.error ()) (Except.ok "p") (Except.ok "b")).error =
        some readErrorMsg :=
  error_handling_amended.1 sampleIdle sampleImg (Except.ok "p") (Except.ok "b") rfl
    (by simp only [sampleIdle]; decide)

/-- C7: re-running after a Failed state with valid inputs and two
successful calls reaches Success with no residue of the prior attempt:
the error is cleared and the intermediate prompt and generated image are
exactly the new run's values, independent of the stale ones. -/
theorem rerun_after_failure_no_residue (s : AppModel) (img : ImageFileWithPreview)
    (dataUrl descriptivePrompt imageBytes : String)
    (hFailed : s.appState = AppState.Error)
    (hImg : s.uploadedImage = some img) (hPrompt : jsTrim s.userPrompt ≠ "") :
    (runSubmit s (Except.ok dataUrl) (Except.ok descriptivePrompt)
        (Except.ok imageBytes)).appState = AppState.Success ∧
    (runSubmit s (Except.ok dataUrl) (Except.ok descriptivePrompt)
        (Except.ok imageBytes)).error = none ∧
    (runSubmit s (Except.ok dataUrl) (Except.ok descriptivePrompt)
        (Except.ok imageBytes)).intermediatePrompt = some descriptivePrompt ∧
    (runSubmit s (Except.ok dataUrl) (Except.ok descriptivePrompt)
        (Except.ok imageBytes)).generatedImageUrl =
      some ("data:image/jpeg;base64," ++ imageBytes) := by
  refine ⟨?_, ?_, ?_, ?_⟩ <;>
    simp [handleSubmitEvents, hImg, hPrompt, runSubmit, applyEvents, applyEvent]

/-- Witness for C7: re-running from a concrete failed state with residue
reaches Success with the new values only. -/
theorem rerun_after_failure_no_residue_witness :
    (runSubmit sampleFailed (Except.ok "data:image/jpeg;base64,QUJD")
        (Except.ok "fresh prompt") (Except.ok "WFla")).appState = AppState.Success ∧
    (runSubmit sampleFailed (Except.ok "data:image/jpeg;base64,QUJD")
        (Except.ok "fresh prompt") (Except.ok "WFla")).error = none ∧
    (runSubmit sampleFailed (Except.ok "data:image/jpeg;base64,QUJD")
        (Except.ok "fresh prompt") (Except.ok "WFla")).intermediatePrompt =
      some "fresh prompt" ∧
    (runSubmit sampleFailed (Except.ok "data:image/jpeg;base64,QUJD")
        (Except.ok "fresh prompt") (Except.ok "WFla")).generatedImageUrl =
      some ("data:image/jpeg;base64," ++ "WFla") :=
  rerun_after_failure_no_residue sampleFailed sampleImg _ _ _ rfl rfl
    (by simp only [sampleFailed]; decide)

/-- C8 counterexample: "YOUR_API_KEY" has length at least 10 yet the
status check reports it as a placeholder, not as detected; so it is false
that every key of length at least 10 is treated as valid. -/
theorem api_key_length10_counterexample :
    10 ≤ ("YOUR_API_KEY" : String).length ∧
    getApiKeyStatus (some "YOUR_API_KEY") = apiKeyPlaceholderMsg ∧
    getApiKeyStatus (some "YOUR_API_KEY") ≠ apiKeyDetectedMsg := by
  decide

/-- C8 amended: every key of length at least 10 other than the literal
"YOUR_API_KEY" is reported as detected; an absent key and any placeholder
key produce a warning status shown in the header, and the submit button's
disabled condition ignores the key entirely, so submission attempts remain
allowed. -/
theorem api_key_status_amended :
    (∀ k : String, 10 ≤ k.length → k ≠ "YOUR_API_KEY" →
      getApiKeyStatus (some k) = apiKeyDetectedMsg) ∧
    apiKeyWarningShown none = true ∧
    (∀ k : String, getApiKeyStatus (some k) = apiKeyPlaceholderMsg →
      apiKeyWarningShown (some k) = true) ∧
    (∀ (apiKey : Option String) (img : ImageFileWithPreview) (p : String),
      jsTrim p ≠ "" →
        submitButtonDisabled false (some img) p = false) := by
  refine ⟨?_, ?_, ?_, ?_⟩
  · intro k hlen hne
    have hk : k ≠ "" := by
      intro hk
      rw [hk] at hlen
      simp at hlen
    have hlt : ¬ k.length < 10 := by omega
    simp [getApiKeyStatus, hk, hne, hlt]
  · decide
  · intro k hk
    simp [apiKeyWarningShown, hk]
    decide
  · intro apiKey img p hp
    simp [submitButtonDisabled, hp]

/-- Witness for the amended C8 at a concrete 12-character key and a
concrete valid prompt. -/
theorem api_key_status_amended_witness :
    getApiKeyStatus (some "AIzaSy123456") = apiKeyDetectedMsg ∧
    submitButtonDisabled false (some sampleImg) "make the sky purple" = false :=
  ⟨api_key_status_amended.1 "AIzaSy123456" (by decide) (by decide),
   api_key_status_amended.2.2.2 none sampleImg "make the sky purple" (by decide)⟩

/-- C9: uploading a new image replaces the uploaded image, clears the
generated image and the error, resets the state to Idle, and leaves the
user's instruction text and the intermediate prompt from any prior run
unchanged. -/
theorem handle_image_upload_frame (s : AppModel) (f : File) (p : String) :
    (handleImageUpload s f p).uploadedImage = some { file := f, previewUrl := p } ∧
    (handleImageUpload s f p).generatedImageUrl = none ∧
    (handleImageUpload s f p).error = none ∧
    (handleImageUpload s f p).appState = AppState.Idle ∧
    (handleImageUpload s f p).userPrompt = s.userPrompt ∧
    (handleImageUpload s f p).intermediatePrompt = s.intermediatePrompt ∧
    (handleImageUpload s f p).isLoading = s.isLoading := by
  simp [handleImageUpload]

/-- C10: the invariant "Success implies a generated image is set" is
preserved by every operation: image upload, prompt editing, and a full
submit run with any oracle outcomes. -/
theorem success_state_has_image (s : AppModel) (h : stateInvariant s) :
    (∀ (f : File) (p : String), stateInvariant (handleImageUpload s f p)) ∧
    (∀ q : String, stateInvariant (setUserPrompt s q)) ∧
    (∀ (r : Except Unit String) (d i : Except ServiceError String),
      stateInvariant (runSubmit s r d i)) := by
  refine ⟨?_, ?_, ?_⟩
  · intro f p
    simp [stateInvariant, handleImageUpload]
  · intro q
    simpa [stateInvariant, setUserPrompt] using h
  · intro r d i
    cases himg : s.uploadedImage with
    | none =>
      simpa [stateInvariant, runSubmit, handleSubmitEvents, himg, applyEvents,
        applyEvent] using h
    | some img =>
      by_cases hp : jsTrim s.userPrompt = ""
      · simpa [stateInvariant, runSubmit, handleSubmitEvents, himg, hp, applyEvents,
          applyEvent] using h
      · cases r with
        | error u =>
          simp [stateInvariant, runSubmit, handleSubmitEvents, himg, hp, applyEvents,
            applyEvent]
        | ok dataUrl =>
          cases d with
          | error e =>
            simp [stateInvariant, runSubmit, handleSubmitEvents, himg, hp, applyEvents,
              applyEvent]
          | ok descriptivePrompt =>
            cases i with
            | error e =>
              simp [stateInvariant, runSubmit, handleSubmitEvents, himg, hp,
                applyEvents, applyEvent]
            | ok imageBytes =>
              simp [stateInvariant, runSubmit, handleSubmitEvents, himg, hp,
                applyEvents, applyEvent]

/-- Witness for C10 at a concrete invariant-satisfying state: the
invariant survives an upload, a prompt edit, and a full successful run. -/
theorem success_state_has_image_witness :
    stateInvariant (handleImageUpload sampleIdle sampleFile "blob:new") ∧
    stateInvariant (setUserPrompt sampleIdle "different prompt") ∧
    stateInvariant (runSubmit sampleIdle (Except.ok "data:image/jpeg;base64,QUJD")
      (Except.ok "p") (Except.ok "b")) :=
  ⟨(success_state_has_image sampleIdle (by simp [stateInvariant, sampleIdle])).1
      sampleFile "blob:new",
   (success_state_has_image sampleIdle (by simp [stateInvariant, sampleIdle])).2.1
      "different prompt",
   (success_state_has_image sampleIdle (by simp [stateInvariant, sampleIdle])).2.2
      (Except.ok "data:image/jpeg;base64,QUJD") (Except.ok "p") (Except.ok "b")⟩

end AIEditor
